import Mathlib

/-
Verification of the run-data persistence layer (qcodes/dataset/data_set.py).

The Python module is shallowly embedded below.  Pure computations become Lean
functions; raising an exception becomes returning `Except.error`; methods that
mutate `self` return the updated `DataSet` next to their result, so that state
changes performed before an exception is raised stay observable.  The storage
backend (SqliteStorageInterface / sqlite_base) and the ParamSpec value object
are not part of the given source; where they are needed they are modelled from
the specification of the storage contract and marked as such.
-/

set_option maxHeartbeats 1000000

namespace QcodesDataSet

/-- Scalar result and metadata values stored in a run: numbers or text. -/
inductive Value where
  | num (n : Int)
  | str (s : String)
deriving DecidableEq

/-- The Python exception kinds raised by data_set.py. `completedError` is the
dedicated CompletedError (a RuntimeError subclass) raised on mutation of a
completed run. -/
inductive Err where
  | valueError (msg : String)
  | runtimeError (msg : String)
  | completedError
  | typeError (msg : String)
  | nameError (msg : String)
  | keyError (key : String)
deriving DecidableEq

/-- A result mapping as passed to add_result and friends: parameter name to
value (a Python dict, modelled as an association list; lookup is by first
occurrence). -/
abbrev RMap := List (String × Value)

/-- Modelled from the spec: a Parameter Specification value object (its class
lives in qcodes/dataset/param_spec.py, which is not part of the given source).
It carries a name, a declared type, label, unit and the ordered lists of
parameter names it is inferred from and depends on.  The object exposes the
two reference lists as comma-space joined strings, which is what
data_set.py splits on. -/
structure ParamSpec where
  name : String
  ptype : String
  label : String
  unit : String
  inferredFrom : List String
  dependsOn : List String
deriving DecidableEq

/-- Modelled from the spec: the dependency container of the schema model
(qcodes/dataset/dependencies.py, not in the given source): an ordered
collection of parameter specifications. -/
structure InterDependencies where
  paramspecs : List ParamSpec
deriving DecidableEq

/-- Modelled from the spec: the versioned schema descriptor
(qcodes/dataset/descriptions.py, not in the given source) wrapping the
dependency container; its JSON round trip is identified with the value
itself. -/
structure RunDescriber where
  interdeps : InterDependencies
deriving DecidableEq

/-- Modelled from the spec: the state of one run record held by the storage
backend: run metadata (timestamps, names, snapshot, tags, persisted schema
descriptor), the declared columns and the stored result rows.  A row stores
one optional cell per column key; `none` is the "no value" (NULL) cell. -/
structure Backend where
  name : String
  exp_name : String
  sample_name : String
  run_started : Option Nat
  run_completed : Option Nat
  snapshot : Option String
  tags : List (String × Value)
  run_description : RunDescriber
  paramcols : List ParamSpec
  rows : List (List (String × Option Value))
deriving DecidableEq

/-- The observable state of one _Subscriber: its pending FIFO queue of rows,
the running count of rows observed, and the record of callback invocations
(each invocation receives the drained batch and the current count). -/
structure Subscriber where
  queue : List (List (Option Value))
  data_set_len : Nat
  invocations : List (List (List (Option Value)) × Nat)
deriving DecidableEq

/-- The in-memory state of a DataSet as assigned by __init__ (guid, lifecycle
flags, cached schema descriptor, snapshot and metadata mapping), together
with the backend record the storage interface is bound to and the subscriber
registry.  The registry is modelled from the spec (the source reads
self.subscribers without ever initialising it). -/
structure DataSet where
  _guid : String
  _started : Bool
  _completed : Bool
  _description : RunDescriber
  _snapshot : Option String
  _metadata : List (String × Value)
  backend : Backend
  subscribers : List (String × Subscriber)
deriving DecidableEq

/-! ### Python string helpers

data_set.py manipulates parameter-name lists through comma-joined strings:
`','.join(...)`, `.split(',')` and `.split(', ')`.  These are embedded at the
character-list level so that every definition stays structurally recursive. -/

/-- Python sep.join on character lists. -/
def joinWith (sep : List Char) : List (List Char) → List Char
  | [] => []
  | [x] => x
  | x :: y :: t => x ++ sep ++ joinWith sep (y :: t)

/-- Helper for the split functions: prepend a character onto the first chunk
of an already-split list. -/
def consOnto (x : Char) : List (List Char) → List (List Char)
  | [] => [[]]
  | y :: ys => (x :: y) :: ys

/-- Python s.split(c) for a single-character separator. -/
def splitChar (c : Char) : List Char → List (List Char)
  | [] => [[]]
  | x :: xs => if x = c then [] :: splitChar c xs else consOnto x (splitChar c xs)

/-- Python s.split(", ") for the two-character separator used for the
inferred_from / depends_on reference strings. -/
def splitCommaSpace : List Char → List (List Char)
  | [] => [[]]
  | [x] => consOnto x [[]]
  | x :: y :: rest =>
    if x = ',' ∧ y = ' ' then [] :: splitCommaSpace rest
    else consOnto x (splitCommaSpace (y :: rest))

/-- Python sep.join at the String level. -/
def pyJoin (sep : List Char) (xs : List String) : String :=
  String.mk (joinWith sep (xs.map String.toList))

/-- Python s.split(",") at the String level. -/
def pySplitChar (c : Char) (s : String) : List String :=
  (splitChar c s.toList).map String.mk

/-- Python s.split(", ") at the String level. -/
def pySplitCommaSpace (s : String) : List String :=
  (splitCommaSpace s.toList).map String.mk

/-- First-occurrence deduplication, used to model the union of result-map
keys computed by add_results (the source uses frozenset.union, whose
iteration order is unspecified; the model fixes first-occurrence order). -/
def dedupAux (seen : List String) : List String → List String
  | [] => []
  | x :: xs => if x ∈ seen then dedupAux seen xs else x :: dedupAux (x :: seen) xs

/-- First-occurrence key union of a list of strings. -/
def dedupFirst (l : List String) : List String := dedupAux [] l

/-- Python substring membership (the `in` operator on strings), used by the
get_values / get_setpoints guard of the source. -/
def isSubstringOf (needle : List Char) : List Char → Bool
  | [] => needle.isEmpty
  | x :: xs => needle.isPrefixOf (x :: xs) || isSubstringOf needle xs

/-! ### ParamSpec string accessors

The real ParamSpec exposes inferred_from and depends_on as comma-space joined
strings; data_set.py splits them back apart. -/

/-- The inferred_from attribute as the joined string data_set.py splits. -/
def ParamSpec.inferred_from (p : ParamSpec) : String := pyJoin [',', ' '] p.inferredFrom

/-- The depends_on attribute as the joined string data_set.py splits. -/
def ParamSpec.depends_on (p : ParamSpec) : String := pyJoin [',', ' '] p.dependsOn

/-! ### DataSet read accessors (the properties of the source class) -/

/-- Property name: re-fetches the run metadata from the backend. -/
def DataSet.name (ds : DataSet) : String := ds.backend.name

/-- Property guid: the in-memory GUID assigned at construction. -/
def DataSet.guid (ds : DataSet) : String := ds._guid

/-- Property snapshot: the backend view of the snapshot document. -/
def DataSet.snapshot (ds : DataSet) : Option String := ds.backend.snapshot

/-- The backend row count as reported by the storage interface
(dsi.retrieve_number_of_results). -/
def DataSet.retrieve_number_of_results (ds : DataSet) : Nat := ds.backend.rows.length

/-- Property number_of_results: the source body evaluates
self.dsi.retrieve_number_of_results() but has no return statement, so the
property returns Python None (modelled as `none`). -/
def DataSet.number_of_results (ds : DataSet) : Option Nat :=
  let _ := ds.retrieve_number_of_results
  none

/-- Property parameters: the comma-joined names of the cached schema
descriptor, in schema order. -/
def DataSet.parameters (ds : DataSet) : String :=
  pyJoin [','] (ds._description.interdeps.paramspecs.map (fun p => p.name))

/-- get_parameters: the specifications of the cached schema descriptor. -/
def DataSet.get_parameters (ds : DataSet) : List ParamSpec :=
  ds._description.interdeps.paramspecs

/-- Property paramspecs: name-to-specification mapping built by zipping the
names with the specifications. -/
def DataSet.paramspecs (ds : DataSet) : List (String × ParamSpec) :=
  ds.get_parameters.map (fun p => (p.name, p))

/-- Property exp_name: re-fetched from the backend metadata. -/
def DataSet.exp_name (ds : DataSet) : String := ds.backend.exp_name

/-- Property sample_name: re-fetched from the backend metadata. -/
def DataSet.sample_name (ds : DataSet) : String := ds.backend.sample_name

/-- Property run_timestamp_raw: the backend run_started timestamp. -/
def DataSet.run_timestamp_raw (ds : DataSet) : Option Nat := ds.backend.run_started

/-- Property completed_timestamp_raw: the backend run_completed timestamp
(absent until completion). -/
def DataSet.completed_timestamp_raw (ds : DataSet) : Option Nat := ds.backend.run_completed

/-- Property description: the cached schema descriptor. -/
def DataSet.description (ds : DataSet) : RunDescriber := ds._description

/-- Property metadata: the cached tag mapping. -/
def DataSet.metadata (ds : DataSet) : List (String × Value) := ds._metadata

/-- Property started: the in-memory started flag. -/
def DataSet.started (ds : DataSet) : Bool := ds._started

/-- Property completed: the in-memory completed flag. -/
def DataSet.completed (ds : DataSet) : Bool := ds._completed

/-- The __len__ of a DataSet: the current row count read from the backend. -/
def DataSet.len (ds : DataSet) : Nat := ds.backend.rows.length

/-! ### the_same_dataset_as -/

/-- The value of one persistent trait, tagged by its type so that the trait
comparisons of the_same_dataset_as are a single decidable equality. -/
inductive TraitVal where
  | s (v : String)
  | onat (v : Option Nat)
  | ostr (v : Option String)
  | b (v : Bool)
  | specs (v : List (String × ParamSpec))
  | desc (v : RunDescriber)
  | tags (v : List (String × Value))
deriving DecidableEq

/-- The persistent_traits tuple of the source class, in source order, as
named accessors. -/
def persistent_traits : List (String × (DataSet → TraitVal)) :=
  [("name", fun d => .s d.name),
   ("guid", fun d => .s d.guid),
   ("number_of_results", fun d => .onat d.number_of_results),
   ("parameters", fun d => .s d.parameters),
   ("paramspecs", fun d => .specs d.paramspecs),
   ("exp_name", fun d => .s d.exp_name),
   ("sample_name", fun d => .s d.sample_name),
   ("completed", fun d => .b d.completed),
   ("snapshot", fun d => .ostr d.snapshot),
   ("run_timestamp_raw", fun d => .onat d.run_timestamp_raw),
   ("description", fun d => .desc d.description),
   ("completed_timestamp_raw", fun d => .onat d.completed_timestamp_raw),
   ("metadata", fun d => .tags d.metadata)]

/-- An argument handed to the_same_dataset_as: either a DataSet or any other
Python object (isinstance check). -/
inductive PyObj where
  | ds (d : DataSet)
  | other
deriving DecidableEq

/-- The trait comparison loop of the_same_dataset_as: at the first differing
trait, raise RuntimeError when the GUIDs match, return False otherwise;
return True if no trait differs. -/
def traitLoop (a b : DataSet) (guids_match : Bool) :
    List (String × (DataSet → TraitVal)) → Except Err Bool
  | [] => .ok true
  | (attr, f) :: rest =>
    if f a ≠ f b then
      if guids_match then
        .error (.runtimeError
          ("Critical inconsistency detected! The two datasets have the same GUID, but their " ++ attr ++ " differ."))
      else .ok false
    else traitLoop a b guids_match rest

/-- the_same_dataset_as: returns False for a non-DataSet argument, otherwise
compares every persistent trait. -/
def DataSet.the_same_dataset_as (a : DataSet) : PyObj → Except Err Bool
  | .other => .ok false
  | .ds b => traitLoop a b (decide (a.guid = b.guid)) persistent_traits

/-! ### Mutating operations -/

/-- _perform_start_actions followed by setting the started flag, as done at
the top of add_result and add_results when the run is not yet started; the
one start action persists the current schema descriptor to the backend. -/
def DataSet.start_if_needed (ds : DataSet) : DataSet :=
  if ds._started then ds
  else { ds with _started := true, backend.run_description := ds._description }

/-- Modelled from the spec: the storage interface persists a column-oriented
batch of result values (store_results of the storage interface, not in the
given source) by appending one row per column entry; each appended row has
one cell per supplied column. -/
def Backend.store_results (b : Backend) (cols : List (String × List (Option Value))) : Backend :=
  let n := (cols.head?.map (fun c => c.2.length)).getD 0
  let newRows := (List.range n).map (fun i => cols.map (fun c => (c.1, c.2.getD i none)))
  { b with rows := b.rows ++ newRows }

/-- The per-parameter setpoint validation loop of add_result: for every
supplied key, look its specification up in paramspecs (a missing key is a
Python KeyError) and, when it has setpoints, require each of them to be
supplied in the same call. -/
def checkDeps (specs : List (String × ParamSpec)) (keys : List String) :
    List String → Except Err Unit
  | [] => .ok ()
  | k :: rest =>
    match specs.lookup k with
    | none => .error (.keyError k)
    | some spec =>
      if spec.depends_on ≠ "" then
        match (pySplitCommaSpace spec.depends_on).find? (fun dep => decide (¬ dep ∈ keys)) with
        | some dep =>
          .error (.valueError
            ("Can not add result for " ++ k ++ ", since this depends on " ++ dep ++ ", which is not being added."))
        | none => checkDeps specs keys rest
      else checkDeps specs keys rest

/-- add_result: performs the start transition if needed, then the setpoint
validation, then the completed-run check, and only then stores a single row
through the storage interface. -/
def DataSet.add_result (ds0 : DataSet) (results : RMap) : Except Err Unit × DataSet :=
  let ds := ds0.start_if_needed
  match checkDeps ds.paramspecs (results.map (fun kv => kv.1)) (results.map (fun kv => kv.1)) with
  | .error e => (.error e, ds)
  | .ok _ =>
    if ds._completed then (.error .completedError, ds)
    else
      (.ok (), { ds with backend := ds.backend.store_results (results.map (fun kv => (kv.1, [some kv.2]))) })

/-- Minimum row length of a matrix, as computed by Python zip(*rows), which
truncates to the shortest input (and yields nothing for zero inputs). -/
def minRowLen : List (List (Option Value)) → Nat
  | [] => 0
  | r :: rs => rs.foldl (fun m x => min m x.length) r.length

/-- Python list(map(list, zip(*rows))): the column-major transposition used
by add_results. -/
def pyZipCols (rows : List (List (Option Value))) : List (List (Option Value)) :=
  (List.range (minRowLen rows)).map (fun i => rows.map (fun r => r.getD i none))

/-- The key union computed by add_results over the supplied maps (the source
uses frozenset.union; the model fixes first-occurrence order). -/
def expectedKeysOf (results : List RMap) : List String :=
  dedupFirst ((results.map (fun d => d.map (fun kv => kv.1))).flatten)

/-- add_results: performs the start transition if needed, computes the key
union, builds the column-oriented value matrix defaulting missing entries to
"no value", records the pre-insertion row count, stores, and returns that
count.  Note the source has no completed-run check here.  An empty list is a
Python TypeError (frozenset.union with zero arguments). -/
def DataSet.add_results (ds0 : DataSet) (results : List RMap) : Except Err Nat × DataSet :=
  let ds := ds0.start_if_needed
  match results with
  | [] => (.error (.typeError "descriptor union of frozenset needs an argument"), ds)
  | _ :: _ =>
    let expected_keys := expectedKeysOf results
    let values := results.map (fun d => expected_keys.map (fun k => d.lookup k))
    let values_transposed := pyZipCols values
    let len_before_add := ds.backend.rows.length
    (.ok len_before_add,
     { ds with backend := ds.backend.store_results (expected_keys.zip values_transposed) })

/-- Modelled from the spec: the backend bulk cell rewrite by row index
(modify_values / modify_many_values of sqlite_base, not in the given
source): rows from `start` on are rewritten with the matching update map. -/
def modifyManyRows (rows : List (List (String × Option Value))) (start : Nat)
    (updates : List RMap) : List (List (String × Option Value)) :=
  rows.mapIdx (fun i row =>
    if h : start ≤ i ∧ i - start < updates.length then
      row.map (fun cell =>
        match (updates.get ⟨i - start, h.2⟩).lookup cell.1 with
        | some v => (cell.1, some v)
        | none => cell)
    else row)

/-- modify_result: refuses a completed run first, then rejects unknown
parameter names, then rewrites the row at the given index. -/
def DataSet.modify_result (ds : DataSet) (index : Nat) (results : RMap) :
    Except Err Unit × DataSet :=
  if ds._completed then (.error .completedError, ds)
  else
    match (results.map (fun kv => kv.1)).find? (fun k => decide (ds.paramspecs.lookup k = none)) with
    | some k => (.error (.valueError ("No such parameter: " ++ k ++ ".")), ds)
    | none => (.ok (), { ds with backend.rows := modifyManyRows ds.backend.rows index [results] })

/-- modify_results: refuses a completed run first, then requires every
updated name to be a declared parameter, then rewrites the rows from
start_index on. -/
def DataSet.modify_results (ds : DataSet) (start_index : Nat) (updates : List RMap) :
    Except Err Unit × DataSet :=
  if ds._completed then (.error .completedError, ds)
  else
    let flattened_keys := (updates.map (fun u => u.map (fun kv => kv.1))).flatten
    if ¬ (∀ k ∈ flattened_keys, ds.paramspecs.lookup k ≠ none) then
      (.error (.valueError "Can not modify values for parameters not in the dataset"), ds)
    else
      (.ok (), { ds with backend.rows := modifyManyRows ds.backend.rows start_index updates })

/-- add_parameter_values: validates the value count against the current row
count when the run is non-empty, then (with no completed-run check) adds the
parameter column and stores one single-key row per value via add_results. -/
def DataSet.add_parameter_values (ds : DataSet) (spec : ParamSpec) (values : List Value) :
    Except Err Unit × DataSet :=
  if ds.len > 0 ∧ values.length ≠ ds.len then
    (.error (.valueError
      ("Need to have " ++ toString ds.len ++ " values but got " ++ toString values.length ++ ".")), ds)
  else
    let ds1 := { ds with backend.paramcols := ds.backend.paramcols ++ [spec] }
    let r := ds1.add_results (values.map (fun v => [(spec.name, v)]))
    (match r.1 with
     | .ok _ => .ok ()
     | .error e => .error e, r.2)

/-- add_parameter: validates against the currently declared names that the
name is fresh and that every inferred_from / depends_on reference is already
declared, then persists the parameter and appends it to the in-memory schema
descriptor.  The declared names are recovered from the comma-joined
parameters string, exactly as the source does. -/
def DataSet.add_parameter (ds : DataSet) (spec : ParamSpec) : Except Err Unit × DataSet :=
  let old_params : List String :=
    if ds.parameters = "" then [] else pySplitChar ',' ds.parameters
  if spec.name ∈ old_params then
    (.error (.valueError ("Duplicate parameter name: " ++ spec.name)), ds)
  else
    let inf_from0 := pySplitCommaSpace spec.inferred_from
    let inf_from := if inf_from0 = [""] then [] else inf_from0
    match inf_from.find? (fun i => decide (¬ i ∈ old_params)) with
    | some ifrm =>
      (.error (.valueError
        ("Can not infer parameter " ++ spec.name ++ " from " ++ ifrm ++ ", no such parameter in this DataSet")), ds)
    | none =>
      let dep_on0 := pySplitCommaSpace spec.depends_on
      let dep_on := if dep_on0 = [""] then [] else dep_on0
      match dep_on.find? (fun d => decide (¬ d ∈ old_params)) with
      | some dp =>
        (.error (.valueError
          ("Can not have parameter " ++ spec.name ++ " depend on " ++ dp ++ ", no such parameter in this DataSet")), ds)
      | none =>
        (.ok (), { ds with
          backend.paramcols := ds.backend.paramcols ++ [spec],
          _description := { interdeps :=
            { paramspecs := ds._description.interdeps.paramspecs ++ [spec] } } })

/-- The declared parameter names of the cached schema descriptor, in schema
order (what the validation of add_parameter is specified against). -/
def DataSet.declaredNames (ds : DataSet) : List String :=
  ds._description.interdeps.paramspecs.map (fun p => p.name)

/-! ### Completion and subscribers -/

/-- Modelled from the spec: mark_run_complete of the backend persists a
completion timestamp for the run. -/
def Backend.mark_run_complete (b : Backend) (now : Nat) : Backend :=
  { b with run_completed := some now }

/-- The completed property setter: records the flag and, when set to true,
persists the completion timestamp. -/
def DataSet.completed_setter (ds : DataSet) (value : Bool) (now : Nat) : DataSet :=
  let ds1 := { ds with _completed := value }
  if value then { ds1 with backend := ds1.backend.mark_run_complete now } else ds1

/-- done_callback of a _Subscriber: one forced flush-and-invoke; the pending
queue is drained into a batch and the callback invocation is recorded with
the current total-rows-observed count. -/
def Subscriber.done_callback (s : Subscriber) : Subscriber :=
  { s with queue := [], invocations := s.invocations ++ [(s.queue, s.data_set_len)] }

/-- mark_complete: sets the completed flag (persisting the completion
timestamp through the setter) and then invokes done_callback on every
currently registered subscriber. -/
def DataSet.mark_complete (ds : DataSet) (now : Nat) : DataSet :=
  let ds1 := ds.completed_setter true now
  { ds1 with subscribers := ds1.subscribers.map (fun p => (p.1, p.2.done_callback)) }

/-! ### Queries -/

/-- Modelled from the spec: get_values of the backend returns the non-NULL
entries stored for one column. -/
def Backend.get_values (b : Backend) (param_name : String) : List Value :=
  b.rows.filterMap (fun row =>
    match row.lookup param_name with
    | some (some v) => some v
    | _ => none)

/-- get_values: the source guards with `param_name not in self.parameters`,
a Python substring test on the comma-joined parameters string, then fetches
the non-NULL column values. -/
def DataSet.get_values (ds : DataSet) (param_name : String) : Except Err (List Value) :=
  if ¬ (isSubstringOf param_name.toList ds.parameters.toList) then
    .error (.valueError "Unknown parameter, not in this DataSet")
  else .ok (ds.backend.get_values param_name)

/-- get_setpoints: the same substring guard, then a paramspecs lookup (a
Python KeyError when the name is not a declared parameter), then the
no-setpoints check, then the recorded values of the dependency parameters. -/
def DataSet.get_setpoints (ds : DataSet) (param_name : String) :
    Except Err (List (String × List Value)) :=
  if ¬ (isSubstringOf param_name.toList ds.parameters.toList) then
    .error (.valueError "Unknown parameter, not in this DataSet")
  else
    match ds.paramspecs.lookup param_name with
    | none => .error (.keyError param_name)
    | some spec =>
      if spec.depends_on = "" then
        .error (.valueError ("Parameter " ++ param_name ++ " has no setpoints."))
      else
        .ok ((pySplitCommaSpace spec.depends_on).map (fun dep => (dep, ds.backend.get_values dep)))

/-! ### Construction and the loader functions -/

/-- One run record of the backing database: local run id, GUID and the
stored run state. -/
structure RunRec where
  run_id : Nat
  guid : String
  data : Backend
deriving DecidableEq

/-- The backing database: the run registry plus the counters from which
fresh GUIDs and run ids are drawn. -/
structure DB where
  runs : List RunRec
  next_guid : Nat
  next_run_id : Nat
deriving DecidableEq

/-- Modelled from the spec: generate_guid (qcodes/dataset/guids.py, not in
the given source) yields a distinct new GUID on each call. -/
def generate_guid (db : DB) : String × DB :=
  ("guid-" ++ toString db.next_guid, { db with next_guid := db.next_guid + 1 })

/-- The empty schema descriptor of a brand-new run. -/
def emptyDescriber : RunDescriber := { interdeps := { paramspecs := [] } }

/-- Modelled from the spec: create_run of the storage interface creates a
new run record for the given GUID; a fresh run has no run_started and no
run_completed timestamp, no snapshot, no tags and an empty schema. -/
def DB.create_run (db : DB) (guid : String) : DB :=
  let data : Backend :=
    { name := "dataset", exp_name := "experiment", sample_name := "sample",
      run_started := none, run_completed := none, snapshot := none,
      tags := [], run_description := emptyDescriber, paramcols := [], rows := [] }
  { db with
    runs := db.runs ++ [{ run_id := db.next_run_id, guid := guid, data := data }],
    next_run_id := db.next_run_id + 1 }

/-- Fallback record for the (unreachable after create_run) case of a missing
run in retrieve_meta_data. -/
def fallbackBackend : Backend :=
  { name := "", exp_name := "", sample_name := "", run_started := none,
    run_completed := none, snapshot := none, tags := [],
    run_description := emptyDescriber, paramcols := [], rows := [] }

/-- Modelled from the spec: retrieve_meta_data of the storage interface
returns the current state of the run the interface is bound to by GUID. -/
def DB.retrieve_meta_data (db : DB) (guid : String) : Backend :=
  ((db.runs.find? (fun r => decide (r.guid = guid))).map (fun r => r.data)).getD fallbackBackend

/-- The guid-absent branch of DataSet.__init__: generate a new GUID,
instruct the storage interface to create a new run record, then fetch the
run metadata once and seed the in-memory state from it.  The source seeds
_completed with (run_completed is None) and _started with
(run_started is None). -/
def DataSet.init_fresh (db : DB) : DataSet × DB :=
  let g := (generate_guid db).1
  let db1 := (generate_guid db).2
  let db2 := db1.create_run g
  let md := db2.retrieve_meta_data g
  ({ _guid := g,
     _completed := md.run_completed.isNone,
     _started := md.run_started.isNone,
     _description := md.run_description,
     _snapshot := md.snapshot,
     _metadata := md.tags,
     backend := md,
     subscribers := [] }, db2)

/-- Modelled from the spec/docstring: get_runid_from_guid returns -1 when no
run matches and raises RuntimeError when several runs share the GUID. -/
def get_runid_from_guid (db : DB) (guid : String) : Except Err Int :=
  match db.runs.filter (fun r => decide (r.guid = guid)) with
  | [] => .ok (-1)
  | [r] => .ok (Int.ofNat r.run_id)
  | _ :: _ :: _ => .error (.runtimeError "More than one run with the given GUID")

/-- load_by_guid: resolves the GUID to a run id (NameError when absent,
RuntimeError on duplicates) and then calls DataSet(run_id=run_id, conn=conn).
That constructor call omits the guid argument, so __init__ takes the fresh
branch: it generates a brand-new GUID and creates a brand-new run instead of
binding to the resolved one. -/
def load_by_guid (db : DB) (guid : String) : Except Err DataSet × DB :=
  match get_runid_from_guid db guid with
  | .error e => (.error e, db)
  | .ok run_id =>
    if run_id = -1 then
      (.error (.nameError ("No run with GUID: " ++ guid ++ " found in database.")), db)
    else
      let r := DataSet.init_fresh db
      (.ok r.1, r.2)

/-! ### Concrete fixtures used by witnesses and counterexamples -/

/-- An independent numeric parameter named x. -/
def specX : ParamSpec :=
  { name := "x", ptype := "numeric", label := "", unit := "", inferredFrom := [], dependsOn := [] }

/-- A dependent parameter y with setpoint x. -/
def specY : ParamSpec :=
  { name := "y", ptype := "numeric", label := "", unit := "", inferredFrom := [], dependsOn := ["x"] }

/-- An independent parameter named q. -/
def specQ : ParamSpec :=
  { name := "q", ptype := "numeric", label := "", unit := "", inferredFrom := [], dependsOn := [] }

/-- A parameter z depending on the undeclared name w. -/
def specZ : ParamSpec :=
  { name := "z", ptype := "numeric", label := "", unit := "", inferredFrom := [], dependsOn := ["w"] }

/-- An independent parameter named voltage. -/
def specVoltage : ParamSpec :=
  { name := "voltage", ptype := "numeric", label := "", unit := "", inferredFrom := [], dependsOn := [] }

/-- A backend record with the given run name and declared columns. -/
def mkBackend (nm : String) (cols : List ParamSpec) : Backend :=
  { name := nm, exp_name := "experiment", sample_name := "sample",
    run_started := some 100, run_completed := none, snapshot := none, tags := [],
    run_description := { interdeps := { paramspecs := cols } }, paramcols := cols, rows := [] }

/-- A dataset handle over `mkBackend` with the given guid, flags and schema. -/
def mkDS (g nm : String) (cols : List ParamSpec) (started completed : Bool) : DataSet :=
  { _guid := g, _started := started, _completed := completed,
    _description := { interdeps := { paramspecs := cols } },
    _snapshot := none, _metadata := [], backend := mkBackend nm cols, subscribers := [] }

/-- An empty, started, non-completed run with parameter x declared. -/
def dsEmptyX : DataSet := mkDS "guid-a" "run-a" [specX] true false

/-- A completed (and started) run with parameter x declared and no rows. -/
def dsDone : DataSet := mkDS "guid-b" "run-b" [specX] true true

/-- A run whose completed flag is true while its started flag is still
false, with schema x, y (y depending on x) not yet persisted to the
backend. -/
def dsXY : DataSet :=
  { _guid := "guid-c", _started := false, _completed := true,
    _description := { interdeps := { paramspecs := [specX, specY] } },
    _snapshot := none, _metadata := [], backend := mkBackend "run-c" [], subscribers := [] }

/-- A started run with the single parameter voltage and one stored row. -/
def dsVolt : DataSet :=
  { _guid := "guid-v", _started := true, _completed := false,
    _description := { interdeps := { paramspecs := [specVoltage] } },
    _snapshot := none, _metadata := [],
    backend := { mkBackend "run-v" [specVoltage] with rows := [[("voltage", some (Value.num 7))]] },
    subscribers := [] }

/-- First dataset of the consistency fixtures: guid g, run name N1. -/
def dsA : DataSet := mkDS "g" "N1" [specX] true false

/-- Same guid as dsA but a different run name: a critical inconsistency. -/
def dsB : DataSet := mkDS "g" "N2" [specX] true false

/-- A different guid and a different run name than dsA. -/
def dsC : DataSet := mkDS "h" "N2" [specX] true false

/-- A dataset with the single declared parameter x, used to exercise
add_parameter. -/
def dsX : DataSet := mkDS "guid-x" "run-x" [specX] false false

/-- The initially empty backing database. -/
def db0 : DB := { runs := [], next_guid := 0, next_run_id := 1 }

/-- The dataset created fresh against the empty database. -/
def dsOrig : DataSet := (DataSet.init_fresh db0).1

/-- The database state after that fresh creation. -/
def db1W : DB := (DataSet.init_fresh db0).2

/-- The batch of result maps of the add_results example: two maps, the
second with y absent. -/
def resW : List RMap := [[("x", Value.num 0), ("y", Value.num 1)], [("x", Value.num 1)]]

/-! ## Helper lemmas -/

theorem consOnto_ne_nil (x : Char) (l : List (List Char)) : consOnto x l ≠ [] := by
  cases l <;> simp [consOnto]

theorem splitChar_ne_nil (c : Char) (l : List Char) : splitChar c l ≠ [] := by
  cases l with
  | nil => simp [splitChar]
  | cons x xs =>
    by_cases h : x = c <;> simp [splitChar, h, consOnto_ne_nil]

theorem splitCommaSpace_ne_nil (l : List Char) : splitCommaSpace l ≠ [] := by
  match l with
  | [] => simp [splitCommaSpace]
  | [x] => simp [splitCommaSpace, consOnto_ne_nil]
  | x :: y :: rest =>
    by_cases h : x = ',' ∧ y = ' ' <;> simp [splitCommaSpace, h, consOnto_ne_nil]

theorem splitCommaSpace_cons_ne (a : Char) (t : List Char) (ha : a ≠ ',') :
    splitCommaSpace (a :: t) = consOnto a (splitCommaSpace t) := by
  cases t with
  | nil => rfl
  | cons y rest => simp [splitCommaSpace, ha]

theorem splitCommaSpace_sep (rest : List Char) :
    splitCommaSpace (',' :: ' ' :: rest) = [] :: splitCommaSpace rest := by
  simp [splitCommaSpace]

theorem splitChar_append (c : Char) (x l : List Char) (hx : ∀ a ∈ x, a ≠ c) :
    splitChar c (x ++ l) = (x ++ (splitChar c l).headD []) :: (splitChar c l).tail := by
  induction x with
  | nil =>
    cases h : splitChar c l with
    | nil => exact absurd h (splitChar_ne_nil c l)
    | cons y ys => simp [h]
  | cons a as ih =>
    have ha : a ≠ c := hx a (List.mem_cons_self a as)
    have hx2 : ∀ b ∈ as, b ≠ c := fun b hb => hx b (List.mem_cons_of_mem a hb)
    have hrec := ih hx2
    rw [List.cons_append]
    simp only [splitChar, if_neg ha]
    rw [hrec]
    simp [consOnto]

theorem splitCommaSpace_append (x l : List Char) (hx : ∀ a ∈ x, a ≠ ',') :
    splitCommaSpace (x ++ l) =
      (x ++ (splitCommaSpace l).headD []) :: (splitCommaSpace l).tail := by
  induction x with
  | nil =>
    cases h : splitCommaSpace l with
    | nil => exact absurd h (splitCommaSpace_ne_nil l)
    | cons y ys => simp [h]
  | cons a as ih =>
    have ha : a ≠ ',' := hx a (List.mem_cons_self a as)
    have hx2 : ∀ b ∈ as, b ≠ ',' := fun b hb => hx b (List.mem_cons_of_mem a hb)
    have hrec := ih hx2
    rw [List.cons_append, splitCommaSpace_cons_ne a _ ha, hrec]
    simp [consOnto]

theorem splitChar_joinWith (c : Char) (names : List (List Char)) (h0 : names ≠ [])
    (hc : ∀ n ∈ names, ∀ a ∈ n, a ≠ c) :
    splitChar c (joinWith [c] names) = names := by
  induction names with
  | nil => exact absurd rfl h0
  | cons n rest ih =>
    cases rest with
    | nil =>
      have h := splitChar_append c n [] (hc n (List.mem_cons_self _ _))
      simpa [joinWith, splitChar] using h
    | cons m rest2 =>
      have hj : joinWith [c] (n :: m :: rest2) = n ++ (c :: joinWith [c] (m :: rest2)) := by
        simp [joinWith]
      have hsep : splitChar c (c :: joinWith [c] (m :: rest2)) =
          [] :: splitChar c (joinWith [c] (m :: rest2)) := by
        simp [splitChar]
      have ih2 := ih (by simp) (fun q hq => hc q (List.mem_cons_of_mem _ hq))
      rw [hj, splitChar_append c n _ (hc n (List.mem_cons_self _ _)), hsep, ih2]
      simp

theorem splitCommaSpace_joinWith (names : List (List Char)) (h0 : names ≠ [])
    (hc : ∀ n ∈ names, ∀ a ∈ n, a ≠ ',') :
    splitCommaSpace (joinWith [',', ' '] names) = names := by
  induction names with
  | nil => exact absurd rfl h0
  | cons n rest ih =>
    cases rest with
    | nil =>
      have h := splitCommaSpace_append n [] (hc n (List.mem_cons_self _ _))
      simpa [joinWith, splitCommaSpace] using h
    | cons m rest2 =>
      have hj : joinWith [',', ' '] (n :: m :: rest2) =
          n ++ (',' :: ' ' :: joinWith [',', ' '] (m :: rest2)) := by
        simp [joinWith]
      have ih2 := ih (by simp) (fun q hq => hc q (List.mem_cons_of_mem _ hq))
      rw [hj, splitCommaSpace_append n _ (hc n (List.mem_cons_self _ _)),
        splitCommaSpace_sep, ih2]
      simp

theorem mk_toList (s : String) : String.mk s.toList = s := rfl

theorem toList_pyJoin (sep : List Char) (xs : List String) :
    (pyJoin sep xs).toList = joinWith sep (xs.map String.toList) := rfl

theorem pySplitCommaSpace_pyJoin (xs : List String) (h0 : xs ≠ [])
    (hc : ∀ s ∈ xs, ¬ ',' ∈ s.toList) :
    pySplitCommaSpace (pyJoin [',', ' '] xs) = xs := by
  unfold pySplitCommaSpace
  rw [toList_pyJoin]
  rw [splitCommaSpace_joinWith (xs.map String.toList) (by simpa using h0)
    (by
      intro n hn a ha
      obtain ⟨s, hs, rfl⟩ := List.mem_map.mp hn
      intro hac
      exact hc s hs (hac ▸ ha))]
  have hcomp : String.mk ∘ String.toList = id := funext fun s => mk_toList s
  simp [List.map_map, hcomp]

theorem pySplitChar_pyJoin (xs : List String) (h0 : xs ≠ [])
    (hc : ∀ s ∈ xs, ¬ ',' ∈ s.toList) :
    pySplitChar ',' (pyJoin [','] xs) = xs := by
  unfold pySplitChar
  rw [toList_pyJoin]
  rw [splitChar_joinWith ',' (xs.map String.toList) (by simpa using h0)
    (by
      intro n hn a ha
      obtain ⟨s, hs, rfl⟩ := List.mem_map.mp hn
      intro hac
      exact hc s hs (hac ▸ ha))]
  have hcomp : String.mk ∘ String.toList = id := funext fun s => mk_toList s
  simp [List.map_map, hcomp]

theorem joinWith_cons_ne_nil (sep : List Char) (x : List Char) (t : List (List Char))
    (hx : x ≠ []) : joinWith sep (x :: t) ≠ [] := by
  cases t <;> simp [joinWith, hx]

theorem pyJoin_cons_ne_empty (sep : List Char) (x : String) (t : List String)
    (hx : x ≠ "") : pyJoin sep (x :: t) ≠ "" := by
  intro h
  have h2 : (pyJoin sep (x :: t)).toList = ("" : String).toList := by rw [h]
  rw [toList_pyJoin] at h2
  have hxl : x.toList ≠ [] := by
    intro hl
    exact hx (by rw [← mk_toList x, hl])
  exact joinWith_cons_ne_nil sep x.toList (t.map String.toList) hxl (by simpa using h2)

/-! ## Claim theorems -/

/-- C1: the claim states that a freshly constructed DataSet (no GUID given)
has started = false and completed = false, seeded from the metadata fetched
at construction.  The source seeds the flags with `run_completed is None`
and `run_started is None` (instead of `is not None`), so a fresh run, whose
metadata holds no timestamps, gets both flags True.  This theorem evaluates
the constructor at the failing input (a fresh construction against an empty
database). -/
theorem fresh_dataset_flags_inverted :
    (DataSet.init_fresh db0).1.backend.run_started = none ∧
    (DataSet.init_fresh db0).1.backend.run_completed = none ∧
    (DataSet.init_fresh db0).1.started = true ∧
    (DataSet.init_fresh db0).1.completed = true :=
  ⟨rfl, rfl, rfl, rfl⟩

/-- C4: number_of_results is claimed to return the backend row count, and
len(dataset) the same count.  The source property calls
retrieve_number_of_results() but lacks a return statement, so it always
returns None; __len__ does return the backend row count. -/
theorem number_of_results_returns_none (ds : DataSet) :
    ds.number_of_results = none ∧ ds.len = ds.backend.rows.length :=
  ⟨rfl, rfl⟩

/-- C2: the claim states that all five mutating operations raise
CompletedError on a completed run.  In the source, add_results and
add_parameter_values have no completed-run check at all: on a completed run
they store the rows and return normally, contradicting their own docstrings
("It is an error to add results to a completed DataSet").  modify_result,
modify_results and add_result do raise CompletedError.  This theorem
evaluates all five operations on a concrete completed run. -/
theorem completed_run_mutations_not_all_blocked :
    dsDone.completed = true ∧
    (dsDone.add_results [[("x", Value.num 1)]]).1 = .ok 0 ∧
    (dsDone.add_results [[("x", Value.num 1)]]).2.backend.rows
      = [[("x", some (Value.num 1))]] ∧
    (dsDone.add_parameter_values specQ [Value.num 2]).1 = .ok () ∧
    (dsDone.add_parameter_values specQ [Value.num 2]).2.backend.rows
      = [[("q", some (Value.num 2))]] ∧
    (dsDone.add_result [("x", Value.num 1)]).1 = .error .completedError ∧
    (dsDone.modify_result 0 [("x", Value.num 2)]).1 = .error .completedError ∧
    (dsDone.modify_results 0 [[("x", Value.num 2)]]).1 = .error .completedError :=
  ⟨rfl, rfl, rfl, rfl, rfl, rfl, rfl, rfl⟩

/-- C7: mark_complete sets the completed flag, persists the completion
timestamp through the storage interface, and performs one final
flush-and-invoke (done_callback) on every currently registered subscriber
- none of them needs to have been unsubscribed; afterwards the completed
accessor is true. -/
theorem mark_complete_spec (ds : DataSet) (now : Nat) :
    (ds.mark_complete now).completed = true ∧
    (ds.mark_complete now).backend.run_completed = some now ∧
    (ds.mark_complete now).subscribers =
      ds.subscribers.map (fun p => (p.1,
        { queue := [], data_set_len := p.2.data_set_len,
          invocations := p.2.invocations ++ [(p.2.queue, p.2.data_set_len)] })) :=
  ⟨rfl, rfl, rfl⟩

/-- C9: the claim states that get_values fails as invalid input whenever the
name is not a schema parameter.  The source guard is
`param_name not in self.parameters`, a substring test on the comma-joined
parameters string: the non-parameter name "volt" slips through the guard of
a run whose only parameter is "voltage" (get_values succeeds, and
get_setpoints then dies with a KeyError instead of the invalid-input error).
This theorem evaluates both queries at that failing input. -/
theorem get_values_substring_check_bug :
    ¬ ("volt" ∈ dsVolt.declaredNames) ∧
    dsVolt.get_values "volt" = .ok [] ∧
    dsVolt.get_setpoints "volt" = .error (.keyError "volt") ∧
    dsVolt.get_values "nope"
      = .error (.valueError "Unknown parameter, not in this DataSet") ∧
    dsVolt.get_values "voltage" = .ok [Value.num 7] := by
  refine ⟨by decide, rfl, rfl, rfl, rfl⟩

/-- C3: the claim states that load_by_guid on the GUID of a freshly created
run returns a DataSet that is the_same_dataset_as the original.  In the
source, load_by_guid resolves the run id but then calls
DataSet(run_id=run_id, conn=conn) without the guid argument, so __init__
takes the fresh branch: it generates a brand-new GUID and creates a
brand-new run.  The loaded dataset therefore carries a different GUID and
the_same_dataset_as returns False.  (Fresh creations do yield distinct
GUIDs: guid-0 versus guid-1 below.) -/
theorem load_by_guid_roundtrip_broken :
    dsOrig.guid = "guid-0" ∧
    (load_by_guid db1W dsOrig.guid).1 = .ok (DataSet.init_fresh db1W).1 ∧
    (DataSet.init_fresh db1W).1.guid = "guid-1" ∧
    (DataSet.init_fresh db1W).1.guid ≠ dsOrig.guid ∧
    dsOrig.the_same_dataset_as (.ds (DataSet.init_fresh db1W).1) = .ok false := by
  refine ⟨rfl, rfl, rfl, by decide, rfl⟩

theorem start_if_needed_of_not_started (ds : DataSet) (hs : ds._started = false) :
    ds.start_if_needed =
      { ds with _started := true, backend.run_description := ds._description } := by
  simp [DataSet.start_if_needed, hs]

theorem paramspecs_start_if_needed (ds : DataSet) :
    ds.start_if_needed.paramspecs = ds.paramspecs := by
  unfold DataSet.start_if_needed
  by_cases h : ds._started <;>
    simp [h, DataSet.paramspecs, DataSet.get_parameters]

/-- C10: in add_result, the completed-run check is the last check, not the
first: on a run whose completed flag is true but whose started flag is
false, the one-time start action (persisting the schema descriptor) runs
and the started flag is set, and the setpoint validation runs, before
CompletedError is raised - so the error branch returns with a mutated
DataSet state (started now true, schema descriptor persisted), though no
row is stored. -/
theorem add_result_completed_check_last (ds : DataSet) (results : RMap)
    (hc : ds._completed = true) (hs : ds._started = false)
    (hv : checkDeps ds.paramspecs (results.map (fun kv => kv.1))
      (results.map (fun kv => kv.1)) = .ok ()) :
    ds.add_result results =
      (.error .completedError,
       { ds with _started := true, backend.run_description := ds._description }) := by
  have h1 := start_if_needed_of_not_started ds hs
  simp only [DataSet.add_result, paramspecs_start_if_needed, hv]
  rw [h1]
  simp [hc]

/-- Witness for C10: a concrete completed-but-not-started run with schema
x, y (y depends on x) and a result supplying both. -/
theorem add_result_completed_check_last_witness :
    dsXY.add_result [("x", Value.num 0), ("y", Value.num 1)] =
      (.error .completedError,
       { dsXY with _started := true, backend.run_description := dsXY._description }) :=
  add_result_completed_check_last dsXY [("x", Value.num 0), ("y", Value.num 1)]
    rfl rfl (by rfl)

theorem traitLoop_ok_true_iff (a b : DataSet) (gm : Bool)
    (l : List (String × (DataSet → TraitVal))) :
    traitLoop a b gm l = .ok true ↔ ∀ t ∈ l, t.2 a = t.2 b := by
  induction l with
  | nil => simp [traitLoop]
  | cons hd tl ih =>
    obtain ⟨attr, f⟩ := hd
    by_cases h : f a = f b
    · rw [show traitLoop a b gm ((attr, f) :: tl) = traitLoop a b gm tl by
        simp [traitLoop, h]]
      simp [ih, h]
    · have hne : f a ≠ f b := h
      cases gm <;> simp [traitLoop, hne, h]

theorem traitLoop_mismatch_error (a b : DataSet)
    (l : List (String × (DataSet → TraitVal))) (hm : ∃ t ∈ l, t.2 a ≠ t.2 b) :
    ∃ m, traitLoop a b true l = .error (.runtimeError m) := by
  induction l with
  | nil => simp at hm
  | cons hd tl ih =>
    obtain ⟨attr, f⟩ := hd
    by_cases h : f a = f b
    · obtain ⟨t, ht, hne⟩ := hm
      rcases List.mem_cons.mp ht with rfl | htl
      · exact absurd h hne
      · obtain ⟨m, hmm⟩ := ih ⟨t, htl, hne⟩
        exact ⟨m, by simpa [traitLoop, h] using hmm⟩
    · exact ⟨"Critical inconsistency detected! The two datasets have the same GUID, but their "
          ++ attr ++ " differ.", by simp [traitLoop, h]⟩

theorem traitLoop_mismatch_false (a b : DataSet)
    (l : List (String × (DataSet → TraitVal))) (hm : ∃ t ∈ l, t.2 a ≠ t.2 b) :
    traitLoop a b false l = .ok false := by
  induction l with
  | nil => simp at hm
  | cons hd tl ih =>
    obtain ⟨attr, f⟩ := hd
    by_cases h : f a = f b
    · obtain ⟨t, ht, hne⟩ := hm
      rcases List.mem_cons.mp ht with rfl | htl
      · exact absurd h hne
      · simpa [traitLoop, h] using ih ⟨t, htl, hne⟩
    · simp [traitLoop, h]

/-- C6: the_same_dataset_as returns False immediately for a non-DataSet
argument; when the GUIDs are equal and some persistent trait differs, it
fails loudly with the critical-inconsistency RuntimeError; when the GUIDs
differ it returns False (the guid trait itself is among the compared
traits, so a mismatch always exists and the loop returns False at the first
one); and it returns True exactly when every persistent trait matches. -/
theorem the_same_dataset_as_spec :
    (∀ a : DataSet, a.the_same_dataset_as .other = .ok false) ∧
    (∀ a b : DataSet, a.guid = b.guid →
      (∃ t ∈ persistent_traits, t.2 a ≠ t.2 b) →
      ∃ m, a.the_same_dataset_as (.ds b) = .error (.runtimeError m)) ∧
    (∀ a b : DataSet, a.guid ≠ b.guid →
      a.the_same_dataset_as (.ds b) = .ok false) ∧
    (∀ a b : DataSet, a.the_same_dataset_as (.ds b) = .ok true ↔
      ∀ t ∈ persistent_traits, t.2 a = t.2 b) := by
  refine ⟨fun a => rfl, ?_, ?_, ?_⟩
  · intro a b hg hm
    have hgm : decide (a.guid = b.guid) = true := by simp [hg]
    have := traitLoop_mismatch_error a b persistent_traits hm
    simpa [DataSet.the_same_dataset_as, hgm] using this
  · intro a b hg
    have hgm : decide (a.guid = b.guid) = false := by simp [hg]
    have hmem : (("guid", fun d : DataSet => TraitVal.s d.guid)) ∈ persistent_traits := by
      unfold persistent_traits
      exact List.mem_cons_of_mem _ (List.mem_cons_self _ _)
    have hmm : ∃ t ∈ persistent_traits, t.2 a ≠ t.2 b :=
      ⟨("guid", fun d : DataSet => TraitVal.s d.guid), hmem, by simpa using hg⟩
    have := traitLoop_mismatch_false a b persistent_traits hmm
    simpa [DataSet.the_same_dataset_as, hgm] using this
  · intro a b
    exact traitLoop_ok_true_iff a b _ persistent_traits

/-- Witness for C6: a same-GUID pair differing in name fails loudly, a
different-GUID pair returns False, a dataset compared with itself returns
True, and a non-DataSet argument returns False. -/
theorem the_same_dataset_as_spec_witness :
    (∃ m, dsA.the_same_dataset_as (.ds dsB) = .error (.runtimeError m)) ∧
    dsA.the_same_dataset_as (.ds dsC) = .ok false ∧
    dsA.the_same_dataset_as (.ds dsA) = .ok true ∧
    dsA.the_same_dataset_as .other = .ok false := by
  refine ⟨?_, ?_, ?_, ?_⟩
  · exact the_same_dataset_as_spec.2.1 dsA dsB rfl
      ⟨("name", fun d : DataSet => TraitVal.s d.name),
       List.mem_cons_self _ _, by decide⟩
  · exact the_same_dataset_as_spec.2.2.1 dsA dsC (by decide)
  · exact (the_same_dataset_as_spec.2.2.2 dsA dsA).mpr (fun t _ => rfl)
  · exact the_same_dataset_as_spec.1 dsA

theorem declaredNames_parameters (ds : DataSet) :
    ds.parameters = pyJoin [','] ds.declaredNames := rfl

theorem old_params_of_wf (ds : DataSet)
    (h : ∀ n ∈ ds.declaredNames, n ≠ "" ∧ ¬ ',' ∈ n.toList) :
    (if ds.parameters = "" then ([] : List String) else pySplitChar ',' ds.parameters)
      = ds.declaredNames := by
  cases hd : ds.declaredNames with
  | nil =>
    have hp : ds.parameters = "" := by rw [declaredNames_parameters, hd]; rfl
    simp [hp]
  | cons n t =>
    have hn := h n (by rw [hd]; exact List.mem_cons_self _ _)
    have hne : ds.parameters ≠ "" := by
      rw [declaredNames_parameters, hd]
      exact pyJoin_cons_ne_empty [','] n t hn.1
    rw [if_neg hne, declaredNames_parameters, hd]
    exact pySplitChar_pyJoin (n :: t) (by simp)
      (fun s hs => (h s (by rw [hd]; exact hs)).2)

theorem refs_roundtrip (refs : List String)
    (h : ∀ n ∈ refs, n ≠ "" ∧ ¬ ',' ∈ n.toList) :
    (if pySplitCommaSpace (pyJoin [',', ' '] refs) = [""] then ([] : List String)
      else pySplitCommaSpace (pyJoin [',', ' '] refs)) = refs := by
  cases refs with
  | nil =>
    have he : pySplitCommaSpace (pyJoin [',', ' '] []) = [""] := rfl
    simp [he]
  | cons n t =>
    have hr := pySplitCommaSpace_pyJoin (n :: t) (by simp) (fun s hs => (h s hs).2)
    have hne : (n :: t) ≠ [""] := by
      intro heq
      exact (h n (List.mem_cons_self _ _)).1 (List.cons_eq_cons.mp heq).1
    rw [hr, if_neg hne]

/-- C8: add_parameter fails as invalid input (a ValueError) exactly when the
name is already declared, or some inferred_from reference is undeclared, or
some depends_on reference is undeclared; otherwise it persists the
parameter and appends it to the in-memory schema descriptor.  The
hypotheses restrict the statement to well-formed parameter names (non-empty,
comma-free), since the source recovers the declared names by splitting the
comma-joined parameters string. -/
theorem add_parameter_spec (ds : DataSet) (spec : ParamSpec)
    (hn : ∀ n ∈ ds.declaredNames, n ≠ "" ∧ ¬ ',' ∈ n.toList)
    (hi : ∀ n ∈ spec.inferredFrom, n ≠ "" ∧ ¬ ',' ∈ n.toList)
    (hd : ∀ n ∈ spec.dependsOn, n ≠ "" ∧ ¬ ',' ∈ n.toList) :
    ((∃ m, (ds.add_parameter spec).1 = .error (.valueError m)) ↔
      (spec.name ∈ ds.declaredNames ∨
       (∃ n ∈ spec.inferredFrom, ¬ n ∈ ds.declaredNames) ∨
       (∃ n ∈ spec.dependsOn, ¬ n ∈ ds.declaredNames))) ∧
    ((¬ spec.name ∈ ds.declaredNames ∧
      (∀ n ∈ spec.inferredFrom, n ∈ ds.declaredNames) ∧
      (∀ n ∈ spec.dependsOn, n ∈ ds.declaredNames)) →
      ds.add_parameter spec = (.ok (), { ds with
        backend.paramcols := ds.backend.paramcols ++ [spec],
        _description := { interdeps :=
          { paramspecs := ds._description.interdeps.paramspecs ++ [spec] } } })) := by
  have hop := old_params_of_wf ds hn
  have hinf := refs_roundtrip spec.inferredFrom hi
  have hdep := refs_roundtrip spec.dependsOn hd
  simp only [DataSet.add_parameter, ParamSpec.inferred_from, ParamSpec.depends_on]
  rw [hop, hinf, hdep]
  constructor
  · by_cases h1 : spec.name ∈ ds.declaredNames
    · rw [if_pos h1]
      exact iff_of_true ⟨_, rfl⟩ (Or.inl h1)
    · rw [if_neg h1]
      cases hf : spec.inferredFrom.find? (fun i => decide (¬ i ∈ ds.declaredNames)) with
      | some i =>
        have hpi : ¬ i ∈ ds.declaredNames := by simpa using List.find?_some hf
        have hmi : i ∈ spec.inferredFrom := List.mem_of_find?_eq_some hf
        exact iff_of_true ⟨_, rfl⟩ (Or.inr (Or.inl ⟨i, hmi, hpi⟩))
      | none =>
        have hall : ∀ i ∈ spec.inferredFrom, i ∈ ds.declaredNames := by
          intro i hi2
          have := List.find?_eq_none.mp hf i hi2
          simpa using this
        cases hg : spec.dependsOn.find? (fun i => decide (¬ i ∈ ds.declaredNames)) with
        | some d =>
          have hpd : ¬ d ∈ ds.declaredNames := by simpa using List.find?_some hg
          have hmd : d ∈ spec.dependsOn := List.mem_of_find?_eq_some hg
          exact iff_of_true ⟨_, rfl⟩ (Or.inr (Or.inr ⟨d, hmd, hpd⟩))
        | none =>
          have hall2 : ∀ i ∈ spec.dependsOn, i ∈ ds.declaredNames := by
            intro i hi2
            have := List.find?_eq_none.mp hg i hi2
            simpa using this
          refine iff_of_false ?_ ?_
          · rintro ⟨m, hm⟩
            simp at hm
          · rintro (h | ⟨x, hx, hnx⟩ | ⟨x, hx, hnx⟩)
            · exact h1 h
            · exact hnx (hall x hx)
            · exact hnx (hall2 x hx)
  · rintro ⟨g1, g2, g3⟩
    rw [if_neg g1]
    have hf : spec.inferredFrom.find? (fun i => decide (¬ i ∈ ds.declaredNames)) = none :=
      List.find?_eq_none.mpr (fun i hi2 => by simp [g2 i hi2])
    have hg : spec.dependsOn.find? (fun i => decide (¬ i ∈ ds.declaredNames)) = none :=
      List.find?_eq_none.mpr (fun i hi2 => by simp [g3 i hi2])
    rw [hf, hg]

/-- Witness for C8: on a run with parameter x declared, a parameter y with
depends_on = x is accepted and appended, while a parameter z with
depends_on = w (undeclared) is rejected as invalid input. -/
theorem add_parameter_spec_witness :
    dsX.add_parameter specY = (.ok (), { dsX with
      backend.paramcols := dsX.backend.paramcols ++ [specY],
      _description := { interdeps :=
        { paramspecs := dsX._description.interdeps.paramspecs ++ [specY] } } }) ∧
    (∃ m, (dsX.add_parameter specZ).1 = .error (.valueError m)) := by
  constructor
  · exact (add_parameter_spec dsX specY (by decide) (by decide) (by decide)).2
      ⟨by decide, by decide, by decide⟩
  · exact (add_parameter_spec dsX specZ (by decide) (by decide) (by decide)).1.mpr
      (Or.inr (Or.inr ⟨"w", by decide, by decide⟩))

theorem start_if_needed_rows (ds : DataSet) :
    ds.start_if_needed.backend.rows = ds.backend.rows := by
  unfold DataSet.start_if_needed
  by_cases h : ds._started <;> simp [h]

theorem expectedKeys_ne_nil (results : List RMap) (hsome : ∃ d ∈ results, d ≠ []) :
    expectedKeysOf results ≠ [] := by
  obtain ⟨d, hd, hdne⟩ := hsome
  have hfl : ((results.map (fun d => d.map (fun kv => kv.1))).flatten) ≠ [] := by
    intro h0
    rw [List.flatten_eq_nil_iff] at h0
    have hmem : (d.map (fun kv => kv.1))
        ∈ results.map (fun d => d.map (fun kv => kv.1)) :=
      List.mem_map_of_mem _ hd
    have hzero := h0 _ hmem
    rw [List.map_eq_nil_iff] at hzero
    exact hdne hzero
  obtain ⟨x, xs, hx⟩ := List.exists_cons_of_ne_nil hfl
  unfold expectedKeysOf dedupFirst
  rw [hx]
  simp [dedupAux]

theorem foldl_min_const (K : Nat) (rs : List (List (Option Value)))
    (h : ∀ r ∈ rs, r.length = K) :
    rs.foldl (fun m x => min m x.length) K = K := by
  induction rs with
  | nil => rfl
  | cons r t ih =>
    have hr : r.length = K := h r (List.mem_cons_self _ _)
    simp only [List.foldl_cons, hr, min_self]
    exact ih (fun q hq => h q (List.mem_cons_of_mem _ hq))

theorem minRowLen_rect (K : Nat) (r : List (Option Value)) (rs : List (List (Option Value)))
    (h : ∀ x ∈ r :: rs, x.length = K) : minRowLen (r :: rs) = K := by
  have hm : minRowLen (r :: rs) = rs.foldl (fun m x => min m x.length) r.length := rfl
  rw [hm, h r (List.mem_cons_self _ _)]
  exact foldl_min_const K rs (fun q hq => h q (List.mem_cons_of_mem _ hq))

theorem zip_self_map (keys : List String) (g : String → Option Value) :
    keys.zip (keys.map g) = keys.map (fun k => (k, g k)) := by
  induction keys with
  | nil => rfl
  | cons k t ih => simp [ih]

theorem store_transpose_rows (k0 : String) (ks : List String)
    (vals : List (List (Option Value))) (hvne : vals ≠ [])
    (hrect : ∀ v ∈ vals, v.length = (k0 :: ks).length) :
    (List.range (((((k0 :: ks).zip (pyZipCols vals)).head?).map
        (fun c => c.2.length)).getD 0)).map
      (fun i => ((k0 :: ks).zip (pyZipCols vals)).map (fun c => (c.1, c.2.getD i none)))
    = vals.map (fun v => (k0 :: ks).zip v) := by
  have hmin : minRowLen vals = (k0 :: ks).length := by
    obtain ⟨v0, vs, rfl⟩ := List.exists_cons_of_ne_nil hvne
    exact minRowLen_rect _ _ _ hrect
  have hvt : pyZipCols vals =
      (List.range (k0 :: ks).length).map (fun j => vals.map (fun r => r.getD j none)) := by
    unfold pyZipCols
    rw [hmin]
  have hhead : (((k0 :: ks).zip (pyZipCols vals)).head?).map (fun c => c.2.length)
      = some vals.length := by
    rw [hvt, show (k0 :: ks).length = ks.length + 1 from rfl, List.range_succ_eq_map,
      List.map_cons, List.zip_cons_cons]
    simp
  rw [hhead, Option.getD_some]
  apply List.ext_getElem
  · simp
  · intro i h1 h2
    simp only [List.getElem_map, List.getElem_range]
    have hiv : i < vals.length := by simpa using h2
    apply List.ext_getElem
    · simp only [List.length_map, List.length_zip, hvt, List.length_range]
      have := hrect _ (List.getElem_mem hiv)
      simp [this]
    · intro j hj1 hj2
      have hjk : j < (k0 :: ks).length := by
        simp only [List.length_map, List.length_zip, hvt, List.length_range, min_self] at hj1
        exact hj1
      simp only [List.getElem_map, List.getElem_zip, hvt, List.getElem_range]
      rw [List.getD_eq_getElem _ _ (by simpa using hiv)]
      simp only [List.getElem_map]
      rw [List.getD_eq_getElem _ _ (by
        rw [hrect _ (List.getElem_mem hiv)]
        exact hjk)]

/-- C5 (amended): for a non-completed DataSet and a non-empty list of value
maps of which at least one is non-empty, add_results stores one row per
supplied map, defaulting every key missing from a given map to "no value",
and returns the row count recorded immediately before the insertion.  (When
every supplied map is empty the computed key union is empty and no row is
stored - see the counterexample theorem.) -/
theorem add_results_spec (ds : DataSet) (results : List RMap)
    (hc : ds.completed = false) (hne : results ≠ [])
    (hsome : ∃ d ∈ results, d ≠ []) :
    (ds.add_results results).1 = .ok ds.backend.rows.length ∧
    (ds.add_results results).2.backend.rows =
      ds.backend.rows ++ results.map (fun d =>
        (expectedKeysOf results).map (fun k => (k, d.lookup k))) := by
  have hKne : expectedKeysOf results ≠ [] := expectedKeys_ne_nil results hsome
  obtain ⟨r0, rs, rfl⟩ := List.exists_cons_of_ne_nil hne
  obtain ⟨k0, ks, hkeq⟩ := List.exists_cons_of_ne_nil hKne
  constructor
  · simp only [DataSet.add_results]
    rw [start_if_needed_rows]
  · simp only [DataSet.add_results, Backend.store_results]
    rw [start_if_needed_rows, hkeq]
    congr 1
    rw [store_transpose_rows k0 ks
      ((r0 :: rs).map (fun d => (k0 :: ks).map (fun k => d.lookup k)))
      (by simp)
      (by
        intro v hv2
        obtain ⟨d, hd2, rfl⟩ := List.mem_map.mp hv2
        simp)]
    rw [List.map_map]
    simp only [Function.comp_def, zip_self_map]

/-- Counterexample for C5 as literally stated: on an empty run a call with
one supplied map that happens to be empty stores zero rows, not one row per
supplied map, while still returning the pre-insertion count 0 (the key
union across the maps is empty, so the column matrix has no columns). -/
theorem add_results_all_empty_maps_counterexample :
    (dsEmptyX.add_results [[]]).1 = .ok 0 ∧
    (dsEmptyX.add_results [[]]).2.backend.rows.length = 0 ∧
    ¬ ((dsEmptyX.add_results [[]]).2.backend.rows.length
        = dsEmptyX.backend.rows.length + 1) := by
  refine ⟨rfl, rfl, by decide⟩

/-- Witness for C5: the documented example.  On an initially empty run,
add_results with maps x=0,y=1 and x=1 returns 0 and stores two rows, the
second with y absent; a further call on the now 2-row run returns 2. -/
theorem add_results_spec_witness :
    ((dsEmptyX.add_results resW).1 = .ok dsEmptyX.backend.rows.length ∧
     (dsEmptyX.add_results resW).2.backend.rows =
       dsEmptyX.backend.rows ++ resW.map (fun d =>
         (expectedKeysOf resW).map (fun k => (k, d.lookup k)))) ∧
    ((dsEmptyX.add_results resW).2.add_results resW).1 = .ok 2 := by
  constructor
  · exact add_results_spec dsEmptyX resW rfl (by decide)
      ⟨[("x", Value.num 0), ("y", Value.num 1)], List.mem_cons_self _ _, by decide⟩
  · rfl

end QcodesDataSet
